import Mathlib

/-!
Verification of the RAG_QURAN agent/orchestration pipeline.

The Python sources are shallowly embedded here: Python `str` values are
modelled as `List Char` (`PyStr`), Python exceptions as `Except`, the
external collaborators (FAISS vector index, langchain retriever objects,
the OpenAI chat backends, the tafsir data files) as explicit function
parameters.  Every definition is translated from the repository's source
files; where a definition models a module that the repository imports but
whose file is absent, its doc comment says so explicitly.
-/

namespace RagQuran

/-- Python `str`, modelled as a list of characters. -/
abbrev PyStr := List Char

/-- Characters that Python's default `str.strip()` removes. -/
def pyIsSpace (c : Char) : Bool :=
  c = ' ' || c = '\t' || c = '\n' || c = '\r' || c = '\x0b' || c = '\x0c'

/-- Python `str.strip()`: drop leading and trailing whitespace. -/
def pyStrip (s : PyStr) : PyStr :=
  ((s.dropWhile pyIsSpace).reverse.dropWhile pyIsSpace).reverse

/-- Python `str.startswith(pre)`. -/
def pyStartsWith (pre s : PyStr) : Bool := pre.isPrefixOf s

/-- Python `sub in s` (substring containment). -/
def pyContains (sub : PyStr) : PyStr → Bool
  | [] => sub.isPrefixOf []
  | c :: t => sub.isPrefixOf (c :: t) || pyContains sub t

/-- Python `sep.join(parts)`. -/
def pyJoin (sep : PyStr) : List PyStr → PyStr
  | [] => []
  | [p] => p
  | p :: q :: rest => p ++ sep ++ pyJoin sep (q :: rest)

/-- Fuel-indexed core of Python `s.split(sep)` (for a non-empty `sep`).
The fuel argument only makes the recursion structural; `pySplit` always
supplies enough fuel for it never to run out. -/
def pySplitF : Nat → PyStr → PyStr → List PyStr
  | 0, _, _ => []
  | _ + 1, _, [] => [[]]
  | n + 1, sep, c :: t =>
    if sep ≠ [] ∧ sep.isPrefixOf (c :: t) then
      [] :: pySplitF n sep (List.drop sep.length (c :: t))
    else
      match pySplitF n sep t with
      | [] => [[c]]
      | p :: ps => (c :: p) :: ps

/-- Python `s.split(sep)` for a non-empty separator `sep`. -/
def pySplit (sep s : PyStr) : List PyStr := pySplitF (s.length + 1) sep s

/-- Python `s.split(sep, 1)` (split at the first occurrence), returned as the
pair of the part before and the part after; used only on inputs that contain
`sep`, where Python returns exactly two parts. -/
def pySplitOnce (sep : PyStr) : PyStr → PyStr × PyStr
  | [] => ([], [])
  | c :: t =>
    if sep ≠ [] ∧ sep.isPrefixOf (c :: t) then ([], List.drop sep.length (c :: t))
    else
      let p := pySplitOnce sep t
      (c :: p.1, p.2)

/-- Fuel-indexed core of Python `s.replace(pat, repl)` (non-empty `pat`):
replaces every non-overlapping occurrence, scanning left to right. -/
def pyReplaceF : Nat → PyStr → PyStr → PyStr → PyStr
  | 0, _, _, _ => []
  | _ + 1, _, _, [] => []
  | n + 1, pat, repl, c :: t =>
    if pat ≠ [] ∧ pat.isPrefixOf (c :: t) then
      repl ++ pyReplaceF n pat repl (List.drop pat.length (c :: t))
    else c :: pyReplaceF n pat repl t

/-- Python `s.replace(pat, repl)` for a non-empty pattern. -/
def pyReplace (pat repl s : PyStr) : PyStr := pyReplaceF (s.length + 1) pat repl s

/-- Python `str.title()` restricted to its behaviour on ASCII words:
the first letter of each alphabetic run is upper-cased, the rest lower-cased. -/
def pyTitleAux : Bool → PyStr → PyStr
  | _, [] => []
  | prevAlpha, c :: t =>
    (if c.isAlpha then (if prevAlpha then c.toLower else c.toUpper) else c)
      :: pyTitleAux c.isAlpha t

/-- Python `s.title()`. -/
def pyTitle (s : PyStr) : PyStr := pyTitleAux false s

/-- Python truthiness of an optional integer field (`if surah_filter:`):
`None` and `0` are falsy, every other integer is truthy. -/
def pyTruthy : Option Int → Bool
  | none => false
  | some n => n ≠ 0

/-- Python truthiness of an optional string (`if not tafsir_name:`):
`None` and the empty string are falsy. -/
def pyTruthyStr : Option PyStr → Bool
  | none => false
  | some s => !s.isEmpty

/-! ## Evidence chunks and the retrieval core (`backend/core/retriever.py`) -/

/-- One retrieved document: `page_content` plus the metadata fields the
pipeline reads.  The corpus loader (`backend/core/data_processing.py`)
attaches `source`, `reference`, `surah_num` and `verse_num` to every chunk;
`retrieve_relevant_context` later adds a `query` entry. -/
structure Doc where
  content : PyStr
  source : PyStr
  reference : PyStr
  surahNum : Option Int := none
  verseNum : Option Int := none
  query : Option PyStr := none
  deriving DecidableEq

/-- The dedup key `f"{source}:{ref}"` from `format_context_from_docs`. -/
def refKey (d : Doc) : PyStr := d.source ++ ':' :: d.reference

/-- The bracket interior of one formatted entry, factoring the three
f-strings of `format_context_from_docs`: `"Quran {ref}"` when the source is
`"quran"`, `"Tafsir {name} on {ref}"` (with `name = source.replace("tafsir_", "")`)
when the source starts with `"tafsir_"`, else `"{source} {ref}"`. -/
def renderLabelRef (d : Doc) : PyStr :=
  if d.source = "quran".data then "Quran ".data ++ d.reference
  else if pyStartsWith "tafsir_".data d.source then
    "Tafsir ".data ++ pyReplace "tafsir_".data [] d.source ++ " on ".data ++ d.reference
  else d.source ++ " ".data ++ d.reference

/-- One formatted context entry `"[<label> <ref>]: <content>"`. -/
def render (d : Doc) : PyStr := "[".data ++ renderLabelRef d ++ "]: ".data ++ d.content

/-- The loop body of `format_context_from_docs`: walk the documents keeping
a `seen_refs` set, skip a document whose `f"{source}:{ref}"` key was seen,
otherwise emit its formatted entry. -/
def contextParts (seen : List PyStr) : List Doc → List PyStr
  | [] => []
  | d :: ds =>
    if refKey d ∈ seen then contextParts seen ds
    else render d :: contextParts (refKey d :: seen) ds

/-- The documents that survive the `seen_refs` dedup pass, in order. -/
def dedupAux (seen : List PyStr) : List Doc → List Doc
  | [] => []
  | d :: ds =>
    if refKey d ∈ seen then dedupAux seen ds
    else d :: dedupAux (refKey d :: seen) ds

/-- First-occurrence-wins deduplication by `f"{source}:{ref}"`. -/
def dedupDocs (docs : List Doc) : List Doc := dedupAux [] docs

/-- `format_context_from_docs`: `"No relevant information found."` for an
empty list, otherwise the deduplicated entries joined by a blank line. -/
def formatContextFromDocs (documents : List Doc) : PyStr :=
  if documents.isEmpty then "No relevant information found.".data
  else pyJoin "\n\n".data (contextParts [] documents)

/-- The filter dictionary built by the retriever agent
(keys `"surah"` / `"verse"`). -/
abbrev FilterDict := List (PyStr × Int)

/-- The external langchain retriever object, as `retrieve_relevant_context`
sees it: it may or may not expose a `search_kwargs` attribute (the plain
vector-store retriever does, the contextual-compression wrapper does not),
and running it either yields documents or raises. -/
structure Retriever where
  hasSearchKwargs : Bool
  run : Option FilterDict → Except PyStr (List Doc)

/-- The tracing step of `retrieve_relevant_context`:
`doc.metadata['query'] = query`. -/
def addQueryMeta (q : PyStr) (d : Doc) : Doc := { d with query := some q }

/-- `retrieve_relevant_context`: stash the filter into the retriever's
`search_kwargs` when that attribute exists and the criteria dict is truthy,
run the retrieval, record the query in each document's metadata — and, on
any exception, print a message and return the empty list (the function's
bare `except` absorbs embedding and search errors; it never re-raises). -/
def retrieveRelevantContext (retr : Retriever) (query : PyStr)
    (filterCriteria : FilterDict) : List Doc :=
  match retr.run
      (if retr.hasSearchKwargs && !filterCriteria.isEmpty
       then some filterCriteria else none) with
  | .ok docs => docs.map (addQueryMeta query)
  | .error _ => []

/-! ## Retriever agent (`backend/agents/retriever/agent.py`) -/

/-- The `parameters` override bag of a retriever request. -/
structure RetrieverParams where
  k : Option Int := none
  useCompression : Option Bool := none
  surahFilter : Option (Option Int) := none
  verseFilter : Option (Option Int) := none

/-- `RetrieverAgentRequest`. -/
structure RetrieverAgentRequest where
  query : PyStr
  surahFilter : Option Int := none
  verseFilter : Option Int := none
  k : Int := 5
  useCompression : Bool := true
  parameters : Option RetrieverParams := none

/-- `RetrieverAgentResponse` (`content`, the `query`/`filter_criteria`
metadata, the serialized documents, and `formatted_context`). -/
structure RetrieverAgentResponse where
  content : PyStr
  queryMeta : PyStr
  filterCriteria : FilterDict
  documents : List Doc
  formattedContext : PyStr

/-- A constructed retriever agent: the vector store is modelled as the
factory `vs` behind `create_enhanced_retriever(vector_store, k, use_compression)`,
and `retriever` is the instance built at construction with `k=5`,
`use_compression=True`. -/
structure RetrieverAgent where
  vs : Int → Bool → Retriever
  retriever : Retriever

/-- `RetrieverAgent._initialize_vector_store`: loading failure is re-raised
as `RuntimeError("Failed to load vector store: ...")`; on success the default
retriever (`k=5`, compression on) is created. -/
def initializeVectorStore (loadLocal : Except PyStr (Int → Bool → Retriever)) :
    Except PyStr RetrieverAgent :=
  match loadLocal with
  | .error e => .error ("Failed to load vector store: ".data ++ e)
  | .ok vs => .ok ⟨vs, vs 5 true⟩

/-- `RetrieverAgent.process`: resolve each field through the `parameters`
bag, build `filter_criteria` from the truthy filters, recreate the retriever
when `k != 5 or not use_compression`, retrieve, format, and answer with the
documents as retrieved plus the formatted context. -/
def retrieverAgentProcess (ag : RetrieverAgent) (req : RetrieverAgentRequest) :
    RetrieverAgentResponse :=
  let k := match req.parameters with
    | none => req.k
    | some p => p.k.getD req.k
  let useCompression := match req.parameters with
    | none => req.useCompression
    | some p => p.useCompression.getD req.useCompression
  let surahFilter := match req.parameters with
    | none => req.surahFilter
    | some p => p.surahFilter.getD req.surahFilter
  let verseFilter := match req.parameters with
    | none => req.verseFilter
    | some p => p.verseFilter.getD req.verseFilter
  let filterCriteria : FilterDict :=
    (if pyTruthy surahFilter then [("surah".data, surahFilter.getD 0)] else []) ++
    (if pyTruthy verseFilter then [("verse".data, verseFilter.getD 0)] else [])
  let retr := if k ≠ 5 || !useCompression then ag.vs k useCompression else ag.retriever
  let documents := retrieveRelevantContext retr req.query filterCriteria
  let formatted := formatContextFromDocs documents
  ⟨formatted, req.query, filterCriteria, documents, formatted⟩

/-! ## Generator agent (`backend/agents/generator/agent.py`) -/

/-- One entry of the `sources` list the generator agent parses back out of
its context string (`{source_type, reference, content}`); the orchestrator
builds its merged source list in the same shape. -/
structure SourceEntry where
  sourceType : PyStr
  reference : PyStr
  content : PyStr
  deriving DecidableEq

/-- One iteration of the source-extraction loop in `GeneratorAgent.process`:
a paragraph is kept when it starts with `"["` and contains `"]:"`; the
bracket interior (minus the opening bracket) must contain a space and is
split once on it into `source_type` and `reference`; the text after the
first `"]:"` is stripped into `content`. -/
def parseLine (line : PyStr) : Option SourceEntry :=
  if pyStartsWith "[".data line && pyContains "]:".data line then
    let parts := pySplit "]:".data line
    let referencePart := (parts.headD []).drop 1
    let contentPart := pyStrip (parts.getD 1 [])
    if pyContains " ".data referencePart then
      let p := pySplitOnce " ".data referencePart
      some ⟨p.1, p.2, contentPart⟩
    else none
  else none

/-- The source-extraction pass of `GeneratorAgent.process`: split the
context on blank lines and collect the parsable entries. -/
def parseSources (context : PyStr) : List SourceEntry :=
  (pySplit "\n\n".data context).filterMap parseLine

/-- Modelled from the spec: the polymorphic return shape of the Tier-2
chained generation path (`backend/core/generator.py` is imported by the
generator agent but absent from the sources): a raw string, an object with a
`.content` field, a list of such objects, or a legacy dict carrying either a
`content` entry or `generations`. -/
inductive ChainResponse where
  | plain (s : PyStr)
  | wrapped (content : PyStr)
  | many (contents : List PyStr)
  | legacyContent (s : PyStr)
  | legacyGenerations (text : PyStr)
  deriving DecidableEq

/-- Modelled from the spec: Tier-2 normalization to a plain string — unwrap
`.content` when present, else take the last element of a list (its unwrapped
content), else extract `dict["content"]` or `dict["generations"][0][0].text`,
else stringify as a last resort (here: an empty list stringifies to `"[]"`). -/
def normalizeChainResponse : ChainResponse → PyStr
  | .plain s => s
  | .wrapped c => c
  | .many contents => match contents.getLast? with
    | some c => c
    | none => "[]".data
  | .legacyContent s => s
  | .legacyGenerations t => t

/-- Modelled from the spec: the user-facing apology string returned when
both generation tiers raise (`backend/core/generator.py` is absent from the
sources; the spec fixes only that it is a non-empty apology). -/
def apologyAnswer : PyStr :=
  "I apologize, but I was unable to generate an answer due to an internal error. Please try again.".data

/-- Modelled from the spec: `generate_answer` of the missing
`backend/core/generator.py` — Tier 1 calls the backend directly and any
exception demotes to Tier 2; Tier 2 runs the chained path and its
polymorphic result is normalized; if Tier 2 itself raises, the apology
string is returned instead of propagating. -/
def generateAnswer (tier1 : Except PyStr PyStr)
    (tier2 : Except PyStr ChainResponse) : PyStr :=
  match tier1 with
  | .ok s => s
  | .error _ =>
    match tier2 with
    | .ok r => normalizeChainResponse r
    | .error _ => apologyAnswer

/-- The `parameters` override bag of a generator request (the model
configuration overrides only swap the backend handle, which is modelled by
the tier arguments of `generatorAgentProcess`). -/
structure GeneratorParams where
  context : Option PyStr := none

/-- `GeneratorAgentRequest`. -/
structure GeneratorAgentRequest where
  query : PyStr
  context : PyStr
  parameters : Option GeneratorParams := none

/-- `GeneratorAgentResponse` (`content`, `answer`, parsed `sources`). -/
structure GeneratorAgentResponse where
  content : PyStr
  answer : PyStr
  sources : List SourceEntry
  deriving DecidableEq

/-- `GeneratorAgent._initialize_generator`: a construction failure is
re-raised as `RuntimeError("Failed to initialize generator: ...")`.  The
constructed generator is the pair of tier behaviours used by
`generate_answer`. -/
def initializeGenerator
    (create : Except PyStr ((Except PyStr PyStr) × (Except PyStr ChainResponse))) :
    Except PyStr ((Except PyStr PyStr) × (Except PyStr ChainResponse)) :=
  match create with
  | .error e => .error ("Failed to initialize generator: ".data ++ e)
  | .ok g => .ok g

/-- `GeneratorAgent.process`: resolve the context through the `parameters`
bag, generate the answer through the two-tier `generate_answer`, and parse
the context back into `sources`. -/
def generatorAgentProcess (tier1 : Except PyStr PyStr)
    (tier2 : Except PyStr ChainResponse) (req : GeneratorAgentRequest) :
    GeneratorAgentResponse :=
  let context := match req.parameters with
    | none => req.context
    | some p => p.context.getD req.context
  let answer := generateAnswer tier1 tier2
  let sources := parseSources context
  ⟨answer, answer, sources⟩

/-! ## Tafsir tool agent (`backend/agents/tools/tafsir_tool.py`) -/

/-- One registry entry of `available_tafsirs`
(`{filename, readable_name}`). -/
structure TafsirInfo where
  filename : PyStr
  readableName : PyStr
  deriving DecidableEq

/-- `TafsirToolAgent._load_available_tafsirs`: on a directory-listing
failure the exception is caught, a warning printed, and the registry left
empty; on success every `*.json` file is registered under its stem, with a
readable name derived by dropping the language-code segment before the
first `-`, replacing `-` by spaces and title-casing. -/
def loadAvailableTafsirs (listing : Except PyStr (List PyStr)) :
    List (PyStr × TafsirInfo) :=
  match listing with
  | .error _ => []
  | .ok files =>
    files.filterMap fun filename =>
      if ".json".data.isSuffixOf filename then
        let tafsirId := pyReplace ".json".data [] filename
        let readable :=
          if pyContains "-".data tafsirId then
            pyTitle (pyReplace "-".data " ".data (pySplitOnce "-".data tafsirId).2)
          else pyTitle (pyReplace "-".data " ".data tafsirId)
        some (tafsirId, ⟨filename, readable⟩)
      else none

/-- A constructed tafsir tool agent. -/
structure TafsirAgent where
  availableTafsirs : List (PyStr × TafsirInfo)

/-- The `TafsirToolAgent` constructor: `_load_available_tafsirs` never
re-raises, so construction always succeeds (degrading to an empty registry
on failure). -/
def tafsirInit (listing : Except PyStr (List PyStr)) : Except PyStr TafsirAgent :=
  .ok ⟨loadAvailableTafsirs listing⟩

/-- The `parameters` override bag of a tafsir lookup request. -/
structure TafsirParams where
  surah : Option Int := none
  verse : Option Int := none
  tafsirName : Option (Option PyStr) := none

/-- `TafsirLookupRequest`. -/
structure TafsirLookupRequest where
  query : PyStr
  surah : Int
  verse : Int
  tafsirName : Option PyStr := none
  parameters : Option TafsirParams := none

/-- `TafsirLookupResponse`. -/
structure TafsirLookupResponse where
  content : PyStr
  tafsirText : PyStr
  tafsirName : PyStr
  surah : Int
  verse : Int

/-- `TafsirToolAgent._lookup_tafsir`: read the tafsir's file (modelled as
the external `readFile`, which either yields a `(surah, verse)`-keyed table
or fails), answer the table entry, a `"No tafsir found..."` placeholder when
the keys are absent, or an `"Error retrieving tafsir: ..."` string when
anything raises (the registry miss on an unchecked name included). -/
def lookupTafsir (readFile : PyStr → Except PyStr (Int → Int → Option PyStr))
    (ag : TafsirAgent) (tafsirName : PyStr) (surah verse : Int) : PyStr :=
  match ag.availableTafsirs.lookup tafsirName with
  | none => "Error retrieving tafsir: ".data ++ tafsirName
  | some info =>
    match readFile info.filename with
    | .error e => "Error retrieving tafsir: ".data ++ e
    | .ok table =>
      match table surah verse with
      | some text => text
      | none =>
        "No tafsir found for Surah ".data ++ (toString surah).data ++
        ", Verse ".data ++ (toString verse).data ++ " in ".data ++ tafsirName

/-- `TafsirToolAgent.process`: resolve parameters, default a falsy tafsir
name to the first registered one, answer the listing of valid names when the
name is still falsy or unregistered ("helpful failure"), otherwise look the
text up. -/
def tafsirAgentProcess (readFile : PyStr → Except PyStr (Int → Int → Option PyStr))
    (ag : TafsirAgent) (req : TafsirLookupRequest) : TafsirLookupResponse :=
  let surah := match req.parameters with
    | none => req.surah
    | some p => p.surah.getD req.surah
  let verse := match req.parameters with
    | none => req.verse
    | some p => p.verse.getD req.verse
  let tafsirName0 := match req.parameters with
    | none => req.tafsirName
    | some p => p.tafsirName.getD req.tafsirName
  let tafsirName :=
    if !pyTruthyStr tafsirName0 && !ag.availableTafsirs.isEmpty then
      (ag.availableTafsirs.headD (([], ⟨[], []⟩))).1
    else tafsirName0.getD []
  if !pyTruthyStr (some tafsirName)
      || (ag.availableTafsirs.lookup tafsirName).isNone then
    let msg := "Invalid tafsir name. Available tafsirs: ".data ++
      pyJoin ", ".data (ag.availableTafsirs.map (·.1))
    ⟨msg, msg, [], surah, verse⟩
  else
    let text := lookupTafsir readFile ag tafsirName surah verse
    let readable := ((ag.availableTafsirs.lookup tafsirName).getD ⟨[], []⟩).readableName
    ⟨text, text, readable, surah, verse⟩

/-! ## Translation tool agent (`backend/agents/tools/translation/agent.py`) -/

/-- One verse record of `quran.json` (`verse_data["text"]`; the optional
per-verse metadata is never read by this agent's claims). -/
structure VerseData where
  text : PyStr
  deriving DecidableEq

/-- One surah record (`surah_data["verses"]`). -/
structure SurahData where
  verses : List VerseData
  deriving DecidableEq

/-- The parsed `quran.json` (`quran_data["surahs"]`). -/
structure QuranData where
  surahs : List SurahData
  deriving DecidableEq

/-- The verse dictionary `_get_verse`/`_get_verses` build
(`{arabic, number, surah}`). -/
structure VerseInfo where
  arabic : PyStr
  number : Int
  surah : Int
  deriving DecidableEq

/-- The `ValueError` message for an out-of-range surah number. -/
def invalidSurahMsg (surah : Int) : PyStr :=
  "Invalid surah number: ".data ++ (toString surah).data ++
    ". Must be between 1 and 114.".data

/-- The Python `IndexError` raised when the surah index exceeds the data. -/
def indexErrorMsg : PyStr := "IndexError: list index out of range".data

/-- The `ValueError` message for an out-of-range single verse. -/
def invalidVerseMsg (verse : Int) (surahIdx : Nat) : PyStr :=
  "Invalid verse number: ".data ++ (toString verse).data ++
    " for surah ".data ++ (toString (surahIdx + 1)).data

/-- The `ValueError` message for an invalid verse range. -/
def invalidRangeMsg (startVerse endVerse : Int) (surahIdx : Nat) : PyStr :=
  "Invalid verse range: ".data ++ (toString startVerse).data ++ "-".data ++
    (toString endVerse).data ++ " for surah ".data ++ (toString (surahIdx + 1)).data

/-- `TranslationToolAgent._load_quran_data`: a read failure is re-raised as
`RuntimeError("Failed to load Quran data: ...")`. -/
def loadQuranData (read : Except PyStr QuranData) : Except PyStr QuranData :=
  match read with
  | .error e => .error ("Failed to load Quran data: ".data ++ e)
  | .ok d => .ok d

/-- The hardcoded `available_translations` registry
(`_load_available_translations`). -/
def availableTranslations : List (PyStr × PyStr) :=
  [("en-sahih-international".data, "Sahih International (English)".data),
   ("en-yusuf-ali".data, "Yusuf Ali (English)".data),
   ("en-pickthall".data, "Pickthall (English)".data),
   ("fr-hamidullah".data, "Hamidullah (French)".data),
   ("tr-diyanet".data, "Diyanet Isleri (Turkish)".data),
   ("ur-jalandhry".data, "Jalandhry (Urdu)".data)]

/-- `TranslationToolAgent._get_verse`: index the surah (a Python
`IndexError` when the data is shorter than the validated surah number),
validate `1 ≤ verse ≤ len(verses)` raising `ValueError` otherwise, and
return the verse record. -/
def getVerse (data : QuranData) (surahIdx : Nat) (verse : Int) :
    Except PyStr VerseInfo :=
  match data.surahs.get? surahIdx with
  | none => .error indexErrorMsg
  | some sur =>
    if verse < 1 || verse > sur.verses.length then
      .error (invalidVerseMsg verse surahIdx)
    else
      .ok ⟨(sur.verses.getD (verse - 1).toNat ⟨[]⟩).text, verse, (surahIdx : Int) + 1⟩

/-- `TranslationToolAgent._get_verses`: index the surah, validate
`1 ≤ start ∧ end ≤ len(verses) ∧ start ≤ end` raising `ValueError`
otherwise, and return the records for `range(start-1, end)` — exactly the
requested range, never a clamped one. -/
def getVerses (data : QuranData) (surahIdx : Nat) (startVerse endVerse : Int) :
    Except PyStr (List VerseInfo) :=
  match data.surahs.get? surahIdx with
  | none => .error indexErrorMsg
  | some sur =>
    if startVerse < 1 || endVerse > sur.verses.length || startVerse > endVerse then
      .error (invalidRangeMsg startVerse endVerse surahIdx)
    else
      .ok ((List.range' (startVerse.toNat - 1)
          (endVerse.toNat - (startVerse.toNat - 1))).map fun idx =>
        ⟨(sur.verses.getD idx ⟨[]⟩).text, (idx : Int) + 1, (surahIdx : Int) + 1⟩)

/-- `TranslationToolAgent._translate_verse`: a placeholder translation
string keyed on the translation name. -/
def translateVerse (v : VerseInfo) (translationName : PyStr) : PyStr :=
  let stem := "Translation of Surah ".data ++ (toString v.surah).data ++
    ", Verse ".data ++ (toString v.number).data ++ " in ".data
  if translationName = "en-sahih-international".data then
    stem ++ "Sahih International English".data
  else if translationName = "en-yusuf-ali".data then
    stem ++ "Yusuf Ali English".data
  else stem ++ translationName

/-- The `parameters` override bag of a translation request. -/
structure TranslationParams where
  surah : Option Int := none
  verse : Option Int := none
  endVerse : Option (Option Int) := none
  translationName : Option (Option PyStr) := none

/-- `TranslationRequest`. -/
structure TranslationRequest where
  query : PyStr
  surah : Int
  verse : Int
  endVerse : Option Int := none
  translationName : Option PyStr := none
  parameters : Option TranslationParams := none

/-- `TranslationResponse`. -/
structure TranslationResponse where
  content : PyStr
  arabicText : PyStr
  translatedText : PyStr
  translationName : PyStr
  reference : PyStr
  deriving DecidableEq

/-- The `pydantic.ValidationError` raised when `TranslationResponse` is
constructed with `translation_name=None`: the response field is declared
`str`, and a request without a translation name resolves to Python `None`
(the `getattr(request, "translation_name", default)` fallback never fires,
because the pydantic field always exists, holding `None`), which
`available_translations.get(None, None)` keeps as `None`. -/
def pydanticTranslationNameMsg : PyStr :=
  "ValidationError: translation_name - none is not an allowed value".data

/-- `TranslationToolAgent.process`: resolve parameters, validate
`1 ≤ surah ≤ 114` raising `ValueError` before any verse lookup, then either
translate the verse range (after `_get_verses` range validation) or the
single verse.  A resolved `translation_name` of Python `None` flows into the
`_translate_verse` f-strings as the text `"None"`, but constructing the
`TranslationResponse` afterwards raises a pydantic `ValidationError`,
because its `translation_name : str` field receives
`available_translations.get(None, None) = None`. -/
def translationAgentProcess (data : QuranData) (req : TranslationRequest) :
    Except PyStr TranslationResponse :=
  let surah := match req.parameters with
    | none => req.surah
    | some p => p.surah.getD req.surah
  let verse := match req.parameters with
    | none => req.verse
    | some p => p.verse.getD req.verse
  let endVerse := match req.parameters with
    | none => req.endVerse
    | some p => p.endVerse.getD req.endVerse
  let translationName := match req.parameters with
    | none => req.translationName
    | some p => p.translationName.getD req.translationName
  let tname := translationName.getD "None".data
  if surah < 1 || surah > 114 then
    .error (invalidSurahMsg surah)
  else
    let surahIdx := (surah - 1).toNat
    match endVerse with
    | some endV => do
      let verses ← getVerses data surahIdx verse endV
      let arabic := pyJoin "\n".data (verses.map (·.arabic))
      let translated := pyJoin "\n".data (verses.map (translateVerse · tname))
      let reference := "Quran ".data ++ (toString surah).data ++ ":".data ++
        (toString verse).data ++ "-".data ++ (toString endV).data
      match translationName with
      | none => .error pydanticTranslationNameMsg
      | some t =>
        .ok ⟨translated, arabic, translated,
          (availableTranslations.lookup t).getD t, reference⟩
    | none => do
      let vd ← getVerse data surahIdx verse
      let translated := translateVerse vd tname
      let reference := "Quran ".data ++ (toString surah).data ++ ":".data ++
        (toString verse).data
      match translationName with
      | none => .error pydanticTranslationNameMsg
      | some t =>
        .ok ⟨translated, vd.arabic, translated,
          (availableTranslations.lookup t).getD t, reference⟩

/-! ## Tool-invocation server (`backend/mcp_servers/base_server.py`) -/

/-- `ToolExecutionResult`: a result payload or an error string, never
both. -/
inductive ToolExecutionResult where
  | result (v : PyStr)
  | error (msg : PyStr)
  deriving DecidableEq

/-- Tool-call parameters, an opaque JSON object. -/
abbrev ToolParams := List (PyStr × PyStr)

/-- A registered `ToolDefinition`: a name plus a handler that either
answers a `ToolExecutionResult` or raises.  Synchronous and asynchronous
handlers both reduce to this shape (`execute_tool` awaits coroutines). -/
structure ToolDef where
  name : PyStr
  handler : ToolParams → Except PyStr ToolExecutionResult

/-- `BaseMCPServer.execute_tool`: look the tool up by name; an unknown name
answers the structured error `"Tool not found: <name>"`; otherwise the
handler runs (awaited when asynchronous) and its result is returned, with
any handler exception converted to the structured error
`"Error executing tool <name>: <message>"` — the surrounding `try` means no
exception crosses this boundary. -/
def executeTool (tools : List ToolDef) (callName : PyStr) (params : ToolParams) :
    ToolExecutionResult :=
  match tools.find? (fun t => t.name = callName) with
  | none => .error ("Tool not found: ".data ++ callName)
  | some tool =>
    match tool.handler params with
    | .ok r => r
    | .error e => .error ("Error executing tool ".data ++ callName ++ ": ".data ++ e)

/-! ## Orchestrator (`backend/agents/orchestrator.py`) -/

/-- `QuranQueryRequest` (the `model_name` field only selects the generation
backend, which is modelled by the tier arguments of `processQuery`). -/
structure QuranQueryRequest where
  query : PyStr
  surahFilter : Option Int := none
  verseFilter : Option Int := none
  useDirectTafsir : Bool := false

/-- The `direct_tafsir` record of a `QuranQueryResponse`. -/
structure DirectTafsirResult where
  tafsirName : PyStr
  surah : Int
  verse : Int
  text : PyStr

/-- `QuranQueryResponse`. -/
structure QuranQueryResponse where
  answer : PyStr
  sources : List SourceEntry
  filtersApplied : List (PyStr × Int)
  directTafsir : Option DirectTafsirResult

/-- `A2AOrchestrator.process_query`: build `filters_applied` from the truthy
filters, run the direct tafsir lookup when requested and both filters are
truthy (appending its text to the sources), run the retriever agent
(appending every returned document to the sources), generate from the
retriever's formatted context, and assemble the response. -/
def processQuery (retAg : RetrieverAgent)
    (tafsirRead : PyStr → Except PyStr (Int → Int → Option PyStr))
    (tafsirAg : TafsirAgent)
    (tier1 : Except PyStr PyStr) (tier2 : Except PyStr ChainResponse)
    (req : QuranQueryRequest) : QuranQueryResponse :=
  let filtersApplied :=
    (if pyTruthy req.surahFilter
     then [("surah_filter".data, req.surahFilter.getD 0)] else []) ++
    (if pyTruthy req.verseFilter
     then [("verse_filter".data, req.verseFilter.getD 0)] else [])
  let direct : Option TafsirLookupResponse :=
    if req.useDirectTafsir && pyTruthy req.surahFilter && pyTruthy req.verseFilter then
      let s := req.surahFilter.getD 0
      let v := req.verseFilter.getD 0
      some (tafsirAgentProcess tafsirRead tafsirAg
        ⟨"Get tafsir for Surah ".data ++ (toString s).data ++
          ", Verse ".data ++ (toString v).data, s, v, none, none⟩)
    else none
  let directTafsirResult := direct.map fun tr =>
    (⟨tr.tafsirName, req.surahFilter.getD 0, req.verseFilter.getD 0, tr.tafsirText⟩ :
      DirectTafsirResult)
  let directSources : List SourceEntry :=
    match direct with
    | some tr =>
      [⟨"tafsir".data,
        (toString (req.surahFilter.getD 0)).data ++ ":".data ++
          (toString (req.verseFilter.getD 0)).data, tr.tafsirText⟩]
    | none => []
  let retResp := retrieverAgentProcess retAg
    ⟨req.query, req.surahFilter, req.verseFilter, 5, true,
      some ⟨some 5, some true, none, none⟩⟩
  let context := retResp.formattedContext
  let retrievedSources := retResp.documents.map fun d =>
    (⟨d.source, d.reference, d.content⟩ : SourceEntry)
  let genResp := generatorAgentProcess tier1 tier2
    ⟨req.query, context, some ⟨some context⟩⟩
  ⟨genResp.answer, directSources ++ retrievedSources, filtersApplied,
    directTafsirResult⟩

/-! ## Lemmas about the Python string primitives -/

theorem isPrefixOf_append_self : ∀ (l r : PyStr), l.isPrefixOf (l ++ r) = true
  | [], _ => by simp [List.isPrefixOf]
  | c :: t, r => by
    simp only [List.cons_append, List.isPrefixOf, Bool.and_eq_true, beq_self_eq_true,
      true_and]
    exact isPrefixOf_append_self t r

theorem head_eq_of_isPrefixOf {hc c : Char} {sep' t : PyStr}
    (h : (hc :: sep').isPrefixOf (c :: t) = true) : hc = c := by
  simp only [List.isPrefixOf, Bool.and_eq_true, beq_iff_eq] at h
  exact h.1

theorem pySplitF_congr (sep : PyStr) :
    ∀ n m s, s.length < n → s.length < m → pySplitF n sep s = pySplitF m sep s := by
  intro n
  induction n with
  | zero => intro m s h _; omega
  | succ n ih =>
    intro m s hn hm
    match m, s with
    | 0, s => omega
    | m + 1, [] => rfl
    | m + 1, c :: t =>
      simp only [pySplitF]
      by_cases h : sep ≠ [] ∧ sep.isPrefixOf (c :: t)
      · simp only [if_pos h]
        have hsep : 1 ≤ sep.length := by
          cases hs : sep with
          | nil => exact absurd hs h.1
          | cons a b => simp
        have hlen : (List.drop sep.length (c :: t)).length ≤ t.length := by
          simp only [List.length_drop, List.length_cons]
          omega
        simp only [List.length_cons] at hn hm
        rw [ih m (List.drop sep.length (c :: t)) (by omega) (by omega)]
      · simp only [if_neg h]
        simp only [List.length_cons] at hn hm
        rw [ih m t (by omega) (by omega)]

theorem pySplit_cons (sep : PyStr) (c : Char) (t : PyStr) :
    pySplit sep (c :: t) =
      if sep ≠ [] ∧ sep.isPrefixOf (c :: t) then
        [] :: pySplit sep (List.drop sep.length (c :: t))
      else
        match pySplit sep t with
        | [] => [[c]]
        | p :: ps => (c :: p) :: ps := by
  show pySplitF (t.length + 1 + 1) sep (c :: t) = _
  simp only [pySplitF]
  by_cases h : sep ≠ [] ∧ sep.isPrefixOf (c :: t)
  · rw [if_pos h, if_pos h]
    have hsep : 1 ≤ sep.length := by
      cases hs : sep with
      | nil => exact absurd hs h.1
      | cons a b => simp
    have hlen : (List.drop sep.length (c :: t)).length ≤ t.length := by
      simp only [List.length_drop, List.length_cons]
      omega
    have hcg := pySplitF_congr sep (t.length + 1)
      ((List.drop sep.length (c :: t)).length + 1)
      (List.drop sep.length (c :: t)) (by omega) (by omega)
    rw [hcg]
    rfl
  · rw [if_neg h, if_neg h]
    rfl

theorem pySplit_ne_nil (sep s : PyStr) : pySplit sep s ≠ [] := by
  cases s with
  | nil => simp [pySplit, pySplitF]
  | cons c t =>
    rw [pySplit_cons]
    split
    · simp
    · split <;> simp

/-- A string whose characters avoid the separator's first character splits
into itself alone. -/
theorem pySplit_of_head_not_mem {hc : Char} {sep' : PyStr} :
    ∀ {s : PyStr}, hc ∉ s → pySplit (hc :: sep') s = [s] := by
  intro s
  induction s with
  | nil => intro _; simp [pySplit, pySplitF]
  | cons c t ih =>
    intro hmem
    rw [pySplit_cons]
    have hpre : ¬((hc :: sep') ≠ [] ∧ (hc :: sep').isPrefixOf (c :: t) = true) := by
      rintro ⟨-, hp⟩
      exact hmem (head_eq_of_isPrefixOf hp ▸ List.mem_cons_self c t)
    rw [if_neg hpre, ih (fun h => hmem (List.mem_cons_of_mem c h))]

/-- Splitting a string of the form `a ++ sep ++ b` where `a` avoids the
separator's first character peels off `a`. -/
theorem pySplit_append {hc : Char} {sep' b : PyStr} :
    ∀ {a : PyStr}, hc ∉ a →
      pySplit (hc :: sep') (a ++ (hc :: sep') ++ b) = a :: pySplit (hc :: sep') b := by
  intro a
  induction a with
  | nil =>
    intro _
    simp only [List.nil_append, List.cons_append]
    rw [pySplit_cons]
    have hpre : ((hc :: sep') ≠ [] ∧
        (hc :: sep').isPrefixOf (hc :: (sep' ++ b)) = true) := by
      constructor
      · simp
      · have h := isPrefixOf_append_self (hc :: sep') b
        simp only [List.cons_append] at h
        exact h
    rw [if_pos hpre]
    have hdrop : List.drop (hc :: sep').length (hc :: (sep' ++ b)) = b := by
      have h := List.drop_left (hc :: sep') b
      simp only [List.cons_append, List.length_cons] at h ⊢
      exact h
    rw [hdrop]
  | cons x a' ih =>
    intro hmem
    have hx : hc ≠ x := fun h => hmem (h ▸ List.mem_cons_self x a')
    have ha' : hc ∉ a' := fun h => hmem (List.mem_cons_of_mem x h)
    simp only [List.cons_append]
    rw [pySplit_cons]
    have hpre : ¬((hc :: sep') ≠ [] ∧
        (hc :: sep').isPrefixOf (x :: (a' ++ (hc :: sep') ++ b)) = true) := by
      rintro ⟨-, hp⟩
      exact hx (head_eq_of_isPrefixOf hp)
    rw [if_neg hpre]
    have := ih ha'
    simp only [List.cons_append] at this
    rw [this]

/-- Splitting a join recovers the parts when every part avoids the
separator's first character (so no occurrence can straddle a boundary). -/
theorem pySplit_pyJoin {hc : Char} {sep' : PyStr} :
    ∀ {parts : List PyStr}, parts ≠ [] → (∀ p ∈ parts, hc ∉ p) →
      pySplit (hc :: sep') (pyJoin (hc :: sep') parts) = parts := by
  intro parts
  induction parts with
  | nil => intro h _; exact absurd rfl h
  | cons p rest ih =>
    intro _ hall
    cases rest with
    | nil =>
      simp only [pyJoin]
      exact pySplit_of_head_not_mem (hall p (List.mem_cons_self p []))
    | cons q rest' =>
      show pySplit (hc :: sep') (p ++ (hc :: sep') ++ pyJoin (hc :: sep') (q :: rest')) = _
      rw [pySplit_append (hall p (List.mem_cons_self p _))]
      rw [ih (by simp) (fun x hx => hall x (List.mem_cons_of_mem p hx))]

theorem pyContains_append_right {sub : PyStr} :
    ∀ (l : PyStr) {r : PyStr}, pyContains sub r = true → pyContains sub (l ++ r) = true := by
  intro l
  induction l with
  | nil => intro r h; simpa using h
  | cons c t ih =>
    intro r h
    show pyContains sub (c :: (t ++ r)) = true
    simp only [pyContains, Bool.or_eq_true]
    exact Or.inr (ih h)

theorem pyContains_self_append (sub r : PyStr) : pyContains sub (sub ++ r) = true := by
  cases h : sub ++ r with
  | nil =>
    have hsub : sub = [] := by
      cases sub with
      | nil => rfl
      | cons c t => simp at h
    subst hsub
    simp [pyContains, List.isPrefixOf]
  | cons c t =>
    show pyContains sub (c :: t) = true
    simp only [pyContains, Bool.or_eq_true]
    left
    rw [← h]
    exact isPrefixOf_append_self sub r

theorem pyStrip_space_cons {s : PyStr} (h1 : s.dropWhile pyIsSpace = s)
    (h2 : s.reverse.dropWhile pyIsSpace = s.reverse) :
    pyStrip (' ' :: s) = s := by
  unfold pyStrip
  have : (' ' :: s).dropWhile pyIsSpace = s := by
    rw [List.dropWhile_cons]
    simp only [show pyIsSpace ' ' = true from rfl, if_true]
    exact h1
  rw [this, h2, List.reverse_reverse]

/-! ## Lemmas about deduplication and formatting -/

theorem contextParts_eq_map_render :
    ∀ (ds : List Doc) (seen : List PyStr),
      contextParts seen ds = (dedupAux seen ds).map render := by
  intro ds
  induction ds with
  | nil => intro seen; rfl
  | cons d ds ih =>
    intro seen
    simp only [contextParts, dedupAux]
    by_cases h : refKey d ∈ seen
    · rw [if_pos h, if_pos h, ih]
    · rw [if_neg h, if_neg h, List.map_cons, ih]

theorem dedupAux_sublist :
    ∀ (ds : List Doc) (seen : List PyStr), List.Sublist (dedupAux seen ds) ds := by
  intro ds
  induction ds with
  | nil => intro seen; simp [dedupAux]
  | cons d ds ih =>
    intro seen
    simp only [dedupAux]
    by_cases h : refKey d ∈ seen
    · rw [if_pos h]
      exact (ih seen).cons d
    · rw [if_neg h]
      exact (ih (refKey d :: seen)).cons₂ d

theorem dedupAux_key_spec :
    ∀ (ds : List Doc) (seen : List PyStr),
      (∀ d ∈ dedupAux seen ds, refKey d ∉ seen) ∧
      (dedupAux seen ds).Pairwise (fun a b => refKey a ≠ refKey b) := by
  intro ds
  induction ds with
  | nil => intro seen; simp [dedupAux]
  | cons d ds ih =>
    intro seen
    simp only [dedupAux]
    by_cases h : refKey d ∈ seen
    · rw [if_pos h]
      exact ih seen
    · rw [if_neg h]
      obtain ⟨hmem, hpair⟩ := ih (refKey d :: seen)
      refine ⟨?_, ?_⟩
      · intro x hx
        rcases List.mem_cons.1 hx with rfl | hx'
        · exact h
        · intro hs
          exact hmem x hx' (List.mem_cons_of_mem _ hs)
      · refine List.Pairwise.cons ?_ hpair
        intro b hb heq
        exact hmem b hb (heq ▸ List.mem_cons_self _ _)

/-- Deduplication is the identity on a list whose keys are pairwise distinct
and disjoint from the seen set. -/
theorem dedupAux_eq_self :
    ∀ (ds : List Doc) (seen : List PyStr),
      ds.Pairwise (fun a b => refKey a ≠ refKey b) →
      (∀ d ∈ ds, refKey d ∉ seen) → dedupAux seen ds = ds := by
  intro ds
  induction ds with
  | nil => intro seen _ _; rfl
  | cons d ds ih =>
    intro seen hpair hseen
    obtain ⟨hd, htail⟩ := List.pairwise_cons.mp hpair
    simp only [dedupAux]
    rw [if_neg (hseen d (List.mem_cons_self _ _))]
    congr 1
    refine ih (refKey d :: seen) htail ?_
    intro x hx hmem
    rcases List.mem_cons.1 hmem with heq | hmem'
    · exact hd x hx heq.symm
    · exact hseen x (List.mem_cons_of_mem _ hx) hmem'

/-! ## Lemmas about parsing the formatted context back -/

/-- A document is well formed for round-trip parsing when its rendered
label and its content avoid newlines and closing brackets, and its content
carries no leading or trailing whitespace. -/
def WfDoc (d : Doc) : Prop :=
  '\n' ∉ renderLabelRef d ∧ ']' ∉ renderLabelRef d ∧
  '\n' ∉ d.content ∧ ']' ∉ d.content ∧
  d.content.dropWhile pyIsSpace = d.content ∧
  d.content.reverse.dropWhile pyIsSpace = d.content.reverse

instance (d : Doc) : Decidable (WfDoc d) := by
  unfold WfDoc
  infer_instance

/-- The entry the generator agent's parser recovers from one formatted
chunk: the first-space split of the rendered label, plus the content. -/
def parsedEntry (d : Doc) : SourceEntry :=
  ⟨(pySplitOnce " ".data (renderLabelRef d)).1,
   (pySplitOnce " ".data (renderLabelRef d)).2, d.content⟩

theorem render_eq (d : Doc) :
    render d = ('[' :: renderLabelRef d) ++ (']' :: [':']) ++ (' ' :: d.content) := by
  show ['['] ++ renderLabelRef d ++ ([']', ':', ' '] : PyStr) ++ d.content = _
  simp [List.append_assoc]

theorem newline_not_mem_render {d : Doc} (h : WfDoc d) : '\n' ∉ render d := by
  rw [render_eq]
  intro hm
  rcases List.mem_append.1 hm with hm1 | hm2
  · rcases List.mem_append.1 hm1 with hm3 | hm4
    · rcases List.mem_cons.1 hm3 with heq | hmm
      · exact absurd heq (by decide)
      · exact h.1 hmm
    · rcases List.mem_cons.1 hm4 with heq | hmm
      · exact absurd heq (by decide)
      · rcases List.mem_cons.1 hmm with heq | hmm'
        · exact absurd heq (by decide)
        · simp at hmm'
  · rcases List.mem_cons.1 hm2 with heq | hmm
    · exact absurd heq (by decide)
    · exact h.2.2.1 hmm

theorem labelRef_contains_space (d : Doc) :
    pyContains " ".data (renderLabelRef d) = true := by
  unfold renderLabelRef
  by_cases h1 : d.source = "quran".data
  · rw [if_pos h1]
    show pyContains " ".data ("Quran".data ++ (" ".data ++ d.reference)) = true
    exact pyContains_append_right "Quran".data (pyContains_self_append " ".data d.reference)
  · rw [if_neg h1]
    by_cases h2 : pyStartsWith "tafsir_".data d.source
    · rw [if_pos h2]
      show pyContains " ".data ("Tafsir".data ++ (" ".data ++
        ((pyReplace "tafsir_".data [] d.source ++ " on ".data) ++ d.reference))) = true
      exact pyContains_append_right "Tafsir".data (pyContains_self_append " ".data _)
    · rw [if_neg h2, List.append_assoc]
      exact pyContains_append_right d.source (pyContains_self_append " ".data d.reference)

theorem pySplit_render {d : Doc} (h : WfDoc d) :
    pySplit "]:".data (render d) = [('[' :: renderLabelRef d), (' ' :: d.content)] := by
  rw [render_eq]
  show pySplit (']' :: [':']) _ = _
  have ha : ']' ∉ ('[' :: renderLabelRef d) := by
    intro hm
    rcases List.mem_cons.1 hm with heq | hmm
    · exact absurd heq (by decide)
    · exact h.2.1 hmm
  have hb : ']' ∉ (' ' :: d.content) := by
    intro hm
    rcases List.mem_cons.1 hm with heq | hmm
    · exact absurd heq (by decide)
    · exact h.2.2.2.1 hmm
  rw [pySplit_append ha, pySplit_of_head_not_mem hb]

theorem parseLine_render {d : Doc} (h : WfDoc d) :
    parseLine (render d) = some (parsedEntry d) := by
  have hstart : pyStartsWith "[".data (render d) = true := by
    rw [render_eq]
    show List.isPrefixOf ['['] (('[' :: renderLabelRef d) ++ _ ++ _) = true
    simp [List.isPrefixOf]
  have hcont : pyContains "]:".data (render d) = true := by
    rw [render_eq, List.append_assoc]
    exact pyContains_append_right _ (pyContains_self_append (']' :: [':']) _)
  have hstrip : pyStrip (' ' :: d.content) = d.content :=
    pyStrip_space_cons h.2.2.2.2.1 h.2.2.2.2.2
  simp only [parseLine]
  rw [hstart, hcont, pySplit_render h]
  simp only [Bool.and_self, if_true, List.headD_cons, List.drop_succ_cons,
    List.drop_zero, List.getD_cons_succ, List.getD_cons_zero]
  have hsp := labelRef_contains_space d
  rw [show (" ".data : PyStr) = [' '] from rfl] at hsp
  rw [hsp]
  simp only [if_true]
  rw [hstrip]
  rfl

theorem filterMap_parseLine_map (l : List Doc) (hw : ∀ d ∈ l, WfDoc d) :
    (l.map render).filterMap parseLine = l.map parsedEntry := by
  induction l with
  | nil => rfl
  | cons d ds ih =>
    simp only [List.map_cons, List.filterMap_cons,
      parseLine_render (hw d (List.mem_cons_self _ _))]
    rw [ih (fun x hx => hw x (List.mem_cons_of_mem _ hx))]

/-- Parsing the formatted context of a non-empty, round-trip-well-formed
document list recovers exactly one entry per deduplicated document, in
order. -/
theorem parseSources_format (docs : List Doc) (hne : docs ≠ [])
    (hw : ∀ d ∈ docs, WfDoc d) :
    parseSources (formatContextFromDocs docs) = (dedupDocs docs).map parsedEntry := by
  have hwd : ∀ d ∈ dedupDocs docs, WfDoc d := fun d hd =>
    hw d ((dedupAux_sublist docs []).subset hd)
  have hdne : dedupDocs docs ≠ [] := by
    cases docs with
    | nil => exact absurd rfl hne
    | cons d ds =>
      show dedupAux [] (d :: ds) ≠ []
      simp [dedupAux]
  have hisEmpty : ¬(docs.isEmpty = true) := by
    cases docs with
    | nil => exact absurd rfl hne
    | cons d ds => simp
  unfold parseSources formatContextFromDocs dedupDocs
  rw [if_neg hisEmpty, contextParts_eq_map_render]
  have e2 : "\n\n".data = ('\n' :: ['\n'] : PyStr) := rfl
  rw [e2]
  have hmapne : (dedupAux [] docs).map render ≠ [] := by
    simp only [ne_eq, List.map_eq_nil_iff]
    exact hdne
  have hall : ∀ p ∈ (dedupAux [] docs).map render, '\n' ∉ p := by
    intro p hp
    obtain ⟨d, hd, rfl⟩ := List.mem_map.1 hp
    exact newline_not_mem_render (hwd d hd)
  rw [pySplit_pyJoin hmapne hall]
  exact filterMap_parseLine_map _ hwd

/-! ## Claims -/

/-- A duplicated Quran chunk, as the over-fetching index can return it. -/
def c1Doc : Doc :=
  ⟨"In the name of God".data, "quran".data, "1:1".data, some 1, some 1, none⟩

/-- A retriever agent whose index returns the same chunk twice. -/
def c1Agent : RetrieverAgent :=
  ⟨fun _ _ => ⟨true, fun _ => .ok [c1Doc, c1Doc]⟩,
   ⟨true, fun _ => .ok [c1Doc, c1Doc]⟩⟩

/-- A retrieval request with `k = 1`. -/
def c1Request : RetrieverAgentRequest :=
  ⟨"bismillah".data, none, none, 1, true, none⟩

/-- C1, counterexample: with `k = 1` and an index answering the same chunk
twice, the agent's `documents` list contains two elements sharing the
`(metadata.source, metadata.reference)` pair and exceeds `k` — the response
documents are neither deduplicated nor truncated (only the formatted context
is deduplicated). -/
theorem c1_counterexample :
    ((retrieverAgentProcess c1Agent c1Request).documents.map
        fun d => (d.source, d.reference)) =
      [("quran".data, "1:1".data), ("quran".data, "1:1".data)] ∧
    (retrieverAgentProcess c1Agent c1Request).documents.length = 2 ∧
    ¬((retrieverAgentProcess c1Agent c1Request).documents.length ≤ 1) := by
  refine ⟨by decide, by decide, by decide⟩

/-- C1, amended: the `documents` list is exactly what the index returned
(no dedup, no truncation to `k`); the dedup invariant instead governs the
entries of `formatted_context`: the survivors form a sublist of the
documents (descending-relevance order preserved, first occurrence of each
key winning), no two survivors share the `(source, reference)` pair, and the
formatted context is exactly the rendered survivors. -/
theorem c1_dedup_holds_for_formatted_entries
    (ag : RetrieverAgent) (req : RetrieverAgentRequest) :
    (retrieverAgentProcess ag req).formattedContext =
      formatContextFromDocs (retrieverAgentProcess ag req).documents ∧
    List.Sublist (dedupDocs (retrieverAgentProcess ag req).documents)
      (retrieverAgentProcess ag req).documents ∧
    (dedupDocs (retrieverAgentProcess ag req).documents).Pairwise
      (fun a b => ¬(a.source = b.source ∧ a.reference = b.reference)) ∧
    contextParts [] (retrieverAgentProcess ag req).documents =
      (dedupDocs (retrieverAgentProcess ag req).documents).map render := by
  refine ⟨rfl, dedupAux_sublist _ [], ?_, contextParts_eq_map_render _ []⟩
  have hpair := (dedupAux_key_spec (retrieverAgentProcess ag req).documents []).2
  refine hpair.imp ?_
  intro a b hk ⟨hs, hr⟩
  exact hk (by simp [refKey, hs, hr])

/-- A retriever whose underlying embedding/search call raises. -/
def c2FailRetriever : Retriever :=
  ⟨false, fun _ => .error "embedding call failed".data⟩

/-- A retriever agent built over the failing retriever. -/
def c2Agent : RetrieverAgent := ⟨fun _ _ => c2FailRetriever, c2FailRetriever⟩

/-- C2, counterexample: when the underlying search raises, the call does
not surface any error — `retrieve_relevant_context` swallows the exception
and returns the plain empty list, and the orchestrator runs to completion,
returning an ordinary response built from the
`"No relevant information found."` context instead of aborting. -/
theorem c2_counterexample :
    retrieveRelevantContext c2FailRetriever "patience".data [] = [] ∧
    processQuery c2Agent (fun _ => .error []) ⟨[]⟩
        (.ok "Generated answer".data) (.error "down".data)
        ⟨"patience".data, none, none, false⟩ =
      ⟨"Generated answer".data, [], [], none⟩ := by
  exact ⟨rfl, rfl⟩

/-- C2, amended: an embedding or search error is absorbed locally —
`retrieve_relevant_context` catches it and returns `[]` — and the
orchestrator then completes normally: the generator still runs (its answer
is whatever the tiers produce), the source list is empty, and the retriever
agent hands the generator the `"No relevant information found."` context. -/
theorem c2_retrieval_errors_absorbed (e query : PyStr) (filt : FilterDict)
    (hsk : Bool) (tafsirRead : PyStr → Except PyStr (Int → Int → Option PyStr))
    (tafsirAg : TafsirAgent) (t1 : Except PyStr PyStr)
    (t2 : Except PyStr ChainResponse) (sf vf : Option Int) :
    retrieveRelevantContext ⟨hsk, fun _ => .error e⟩ query filt = [] ∧
    (retrieverAgentProcess ⟨fun _ _ => ⟨hsk, fun _ => .error e⟩,
        ⟨hsk, fun _ => .error e⟩⟩
      ⟨query, sf, vf, 5, true, some ⟨some 5, some true, none, none⟩⟩).formattedContext =
      "No relevant information found.".data ∧
    processQuery ⟨fun _ _ => ⟨hsk, fun _ => .error e⟩, ⟨hsk, fun _ => .error e⟩⟩
        tafsirRead tafsirAg t1 t2 ⟨query, sf, vf, false⟩ =
      ⟨generateAnswer t1 t2, [],
       (if pyTruthy sf then [("surah_filter".data, sf.getD 0)] else []) ++
       (if pyTruthy vf then [("verse_filter".data, vf.getD 0)] else []), none⟩ := by
  exact ⟨rfl, rfl, rfl⟩

/-- A tafsir chunk exercising the commentary formatting branch. -/
def c4Doc : Doc :=
  ⟨"Commentary text".data, "tafsir_ibn_kathir".data, "2:255".data, none, none, none⟩

/-- C4, counterexample: the tafsir branch renders
`"[Tafsir ibn_kathir on 2:255]: ..."` — the prefix-stripped name is kept
verbatim (no title-casing) and the word `" on "` separates it from the
reference — not the claimed `"[Tafsir Ibn Kathir 2:255]: ..."`. -/
theorem c4_counterexample :
    formatContextFromDocs [c4Doc] =
      "[Tafsir ibn_kathir on 2:255]: Commentary text".data ∧
    formatContextFromDocs [c4Doc] ≠
      "[Tafsir Ibn Kathir 2:255]: Commentary text".data := by
  refine ⟨by decide, by decide⟩

/-- C4, amended: on a list of surviving chunks (pairwise distinct
`(source:reference)` keys) the formatter renders each chunk by the three
code branches — `"[Quran {ref}]: {content}"` for source `"quran"`,
`"[Tafsir {name} on {ref}]: {content}"` with
`name = source.replace("tafsir_", "")` for a `tafsir_`-prefixed source, and
`"[{source} {ref}]: {content}"` otherwise — joins the entries with a blank
line, and formats the empty list to the literal
`"No relevant information found."`. -/
theorem c4_formatter_characterization (docs : List Doc)
    (h : docs.Pairwise (fun a b => refKey a ≠ refKey b)) :
    formatContextFromDocs [] = "No relevant information found.".data ∧
    (docs ≠ [] →
      formatContextFromDocs docs = pyJoin "\n\n".data (docs.map render)) ∧
    (∀ d : Doc, d.source = "quran".data →
      render d = "[".data ++ ("Quran ".data ++ d.reference) ++ "]: ".data ++ d.content) ∧
    (∀ d : Doc, d.source ≠ "quran".data → pyStartsWith "tafsir_".data d.source →
      render d = "[".data ++ ("Tafsir ".data ++ pyReplace "tafsir_".data [] d.source ++
        " on ".data ++ d.reference) ++ "]: ".data ++ d.content) ∧
    (∀ d : Doc, d.source ≠ "quran".data → ¬pyStartsWith "tafsir_".data d.source →
      render d = "[".data ++ (d.source ++ " ".data ++ d.reference) ++ "]: ".data ++ d.content) := by
  refine ⟨rfl, ?_, ?_, ?_, ?_⟩
  · intro hne
    unfold formatContextFromDocs
    rw [if_neg (by cases docs with | nil => exact absurd rfl hne | cons a b => simp)]
    rw [contextParts_eq_map_render, dedupAux_eq_self docs [] h (by simp)]
  · intro d hq
    unfold render renderLabelRef
    rw [if_pos hq]
  · intro d hq ht
    unfold render renderLabelRef
    rw [if_neg hq, if_pos ht]
  · intro d hq ht
    unfold render renderLabelRef
    rw [if_neg hq, if_neg ht]

/-- C4, witness: the amended characterization applied to the concrete
single-chunk tafsir list. -/
theorem c4_formatter_characterization_witness :
    ([c4Doc].Pairwise (fun a b => refKey a ≠ refKey b)) ∧
    formatContextFromDocs [c4Doc] = pyJoin "\n\n".data ([c4Doc].map render) := by
  refine ⟨by decide, (c4_formatter_characterization [c4Doc] (by decide)).2.1 (by decide)⟩

theorem pySplitOnce_space (a : PyStr) (ha : ' ' ∉ a) (b : PyStr) :
    pySplitOnce " ".data (a ++ ' ' :: b) = (a, b) := by
  induction a with
  | nil =>
    show pySplitOnce [' '] (' ' :: b) = ([], b)
    simp [pySplitOnce, List.isPrefixOf]
  | cons c a' ih =>
    have hc : c ≠ ' ' := fun h => ha (h ▸ List.mem_cons_self c a')
    have ha' : ' ' ∉ a' := fun h => ha (List.mem_cons_of_mem c h)
    show pySplitOnce [' '] (c :: (a' ++ ' ' :: b)) = (c :: a', b)
    simp only [pySplitOnce]
    rw [if_neg ?hneg]
    · rw [show pySplitOnce [' '] (a' ++ ' ' :: b) = (a', b) from ih ha']
    case hneg =>
      rintro ⟨-, hp⟩
      exact hc (head_eq_of_isPrefixOf hp).symm

/-- For a Quran chunk the parser recovers the label word `"Quran"` as the
source type (not the metadata value `"quran"`). -/
theorem parsedEntry_quran (d : Doc) (hq : d.source = "quran".data) :
    parsedEntry d = ⟨"Quran".data, d.reference, d.content⟩ := by
  unfold parsedEntry
  have h : renderLabelRef d = "Quran".data ++ ' ' :: d.reference := by
    unfold renderLabelRef
    rw [if_pos hq, show ("Quran ".data : PyStr) = "Quran".data ++ [' '] from by decide,
      List.append_assoc, List.singleton_append]
  rw [h, pySplitOnce_space "Quran".data (by decide) d.reference]

/-- A well-formed Quran chunk for the round-trip counterexample. -/
def c3Doc : Doc :=
  ⟨"Seek help through patience and prayer".data, "quran".data, "2:153".data,
   some 2, some 153, none⟩

/-- C3, counterexample: parsing the formatted context of a single Quran
chunk yields the entry `("Quran", "2:153", ...)` while the deduplicated
document carries `("quran", "2:153", ...)` — the parser returns the rendered
label word, not the metadata `source`, so
`parse_sources(format_context(docs)) ≠ dedup(docs)`. -/
theorem c3_counterexample :
    parseSources (formatContextFromDocs [c3Doc]) =
      [⟨"Quran".data, "2:153".data, "Seek help through patience and prayer".data⟩] ∧
    (dedupDocs [c3Doc]).map (fun d => (⟨d.source, d.reference, d.content⟩ : SourceEntry)) =
      [⟨"quran".data, "2:153".data, "Seek help through patience and prayer".data⟩] ∧
    parseSources (formatContextFromDocs [c3Doc]) ≠
      (dedupDocs [c3Doc]).map (fun d => (⟨d.source, d.reference, d.content⟩ : SourceEntry)) := by
  refine ⟨by decide, by decide, by decide⟩

/-- C3, amended: for any non-empty document list whose chunks are
round-trip-well-formed (label and content free of newlines and `]`, content
not padded with whitespace), parsing the formatted context yields exactly
one entry per deduplicated document, in order — each entry being the
first-space split of the rendered label plus the content; in particular a
Quran chunk comes back as `("Quran", reference, content)`, not as its
metadata pair `("quran", reference)`. -/
theorem c3_round_trip_amended (docs : List Doc) (hne : docs ≠ [])
    (hw : ∀ d ∈ docs, WfDoc d) :
    parseSources (formatContextFromDocs docs) = (dedupDocs docs).map parsedEntry ∧
    (∀ d ∈ dedupDocs docs, d.source = "quran".data →
      parsedEntry d = ⟨"Quran".data, d.reference, d.content⟩) :=
  ⟨parseSources_format docs hne hw, fun d _ hq => parsedEntry_quran d hq⟩

/-- C3, witness: the amended round trip evaluated on the concrete
single-chunk list. -/
theorem c3_round_trip_amended_witness :
    (([c3Doc] : List Doc) ≠ []) ∧ (∀ d ∈ [c3Doc], WfDoc d) ∧
    parseSources (formatContextFromDocs [c3Doc]) = (dedupDocs [c3Doc]).map parsedEntry :=
  ⟨by decide, by decide, (c3_round_trip_amended [c3Doc] (by decide) (by decide)).1⟩

/-- C5, counterexample: the claim's unconditional "if Tier 1 raises, the
output still contains a non-empty answer" fails on an empty Tier-2 reply:
with Tier 1 raising and Tier 2 answering the raw empty string (which
normalizes to itself), the agent's answer is the empty string. -/
theorem c5_counterexample :
    (generatorAgentProcess (.error "connection error".data) (.ok (.plain []))
      ⟨"q".data, "[Quran 1:1]: In the name of God".data, none⟩).answer = [] := rfl

/-- C5, amended: when both generation tiers raise, the generator agent's
response is the non-empty apology string together with the sources parsed
from the very context it was handed — built by a total function, so no
generation exception reaches the caller; and when Tier 1 raises but Tier 2
answers a shape that normalizes to a non-empty string, the answer is
non-empty (an empty Tier-2 reply is the one case where it is not). -/
theorem c5_tier_fallback (q ctx e1 e2 : PyStr) :
    generatorAgentProcess (.error e1) (.error e2) ⟨q, ctx, none⟩ =
      ⟨apologyAnswer, apologyAnswer, parseSources ctx⟩ ∧
    apologyAnswer ≠ [] ∧
    (∀ r : ChainResponse, normalizeChainResponse r ≠ [] →
      (generatorAgentProcess (.error e1) (.ok r) ⟨q, ctx, none⟩).answer ≠ []) := by
  refine ⟨rfl, by decide, ?_⟩
  intro r h
  exact h

/-- C5, witness: the tier-fallback theorem applied at a concrete Tier-2
reply. -/
theorem c5_tier_fallback_witness :
    normalizeChainResponse (.plain "All praise is due to God".data) ≠ [] ∧
    (generatorAgentProcess (.error []) (.ok (.plain "All praise is due to God".data))
      ⟨"q".data, "ctx".data, none⟩).answer ≠ [] :=
  ⟨by decide,
   (c5_tier_fallback "q".data "ctx".data [] []).2.2
     (.plain "All praise is due to God".data) (by decide)⟩

/-- C6: `execute_tool` never lets an exception cross the boundary — an
unregistered name answers the structured error `"Tool not found: <name>"`,
a handler's successful `ToolExecutionResult` is returned unchanged, and a
handler exception is converted to the structured error
`"Error executing tool <name>: <message>"`. -/
theorem c6_execute_tool_never_raises (tools : List ToolDef) (name : PyStr)
    (params : ToolParams) :
    (tools.find? (fun t => t.name = name) = none →
      executeTool tools name params = .error ("Tool not found: ".data ++ name)) ∧
    (∀ tool, tools.find? (fun t => t.name = name) = some tool →
      (∀ r, tool.handler params = .ok r → executeTool tools name params = r) ∧
      (∀ e, tool.handler params = .error e →
        executeTool tools name params =
          .error ("Error executing tool ".data ++ name ++ ": ".data ++ e))) := by
  refine ⟨?_, ?_⟩
  · intro h
    unfold executeTool
    rw [h]
  · intro tool h
    refine ⟨?_, ?_⟩
    · intro r hr
      unfold executeTool
      rw [h]
      show (match tool.handler params with
        | Except.ok r => r
        | Except.error e =>
          ToolExecutionResult.error
            ("Error executing tool ".data ++ name ++ ": ".data ++ e)) = r
      rw [hr]
    · intro e he
      unfold executeTool
      rw [h]
      show (match tool.handler params with
        | Except.ok r => r
        | Except.error e =>
          ToolExecutionResult.error
            ("Error executing tool ".data ++ name ++ ": ".data ++ e)) = _
      rw [he]

/-- C6, witness: the spec's scenario — an unregistered
`"nonexistent_tool"` call answers exactly
`{error: "Tool not found: nonexistent_tool"}`. -/
theorem c6_execute_tool_never_raises_witness :
    ([] : List ToolDef).find? (fun t => t.name = "nonexistent_tool".data) = none ∧
    executeTool [] "nonexistent_tool".data [] =
      .error ("Tool not found: ".data ++ "nonexistent_tool".data) ∧
    "Tool not found: ".data ++ "nonexistent_tool".data =
      "Tool not found: nonexistent_tool".data :=
  ⟨rfl, (c6_execute_tool_never_raises [] "nonexistent_tool".data []).1 rfl, by decide⟩

theorem getD_range'_map (l : List VerseData) :
    ∀ (n a : Nat), a + n ≤ l.length →
      (List.range' a n).map (fun idx => l.getD idx ⟨[]⟩) = (l.drop a).take n := by
  intro n
  induction n with
  | zero => intro a _; simp
  | succ n ih =>
    intro a h
    have ha : a < l.length := by omega
    rw [List.range'_succ _ _ _, List.map_cons,
      List.drop_eq_getElem_cons ha, List.take_succ_cons]
    congr 1
    · simp [List.getD, List.getElem?_eq_getElem ha]
    · exact ih (a + 1) (by omega)

theorem verses_arabic_map (sur : SurahData) (srh : Int) (a n : Nat)
    (h : a + n ≤ sur.verses.length) :
    ((List.range' a n).map fun idx =>
        (⟨(sur.verses.getD idx ⟨[]⟩).text, (idx : Int) + 1, srh⟩ : VerseInfo)).map
      (·.arabic) = ((sur.verses.drop a).take n).map (·.text) := by
  rw [← getD_range'_map sur.verses n a h]
  simp only [List.map_map, Function.comp_def]

/-- C7: the translation agent validates `1 ≤ surah ≤ 114` before touching
the Quran data (the conclusion holds for every `data`, so no lookup can have
occurred), validates `1 ≤ start ≤ end ≤ surah_length` for range requests and
`1 ≤ verse ≤ surah_length` for single-verse requests, raising the
corresponding `ValueError` on any violation, and, when a translation name is
supplied, on success returns exactly the requested verses — never a clamped
range; a valid request without a translation name instead fails at response
construction with the pydantic error. -/
theorem c7_translation_validation (data : QuranData) (q : PyStr) (tn : Option PyStr) :
    (∀ (v : Int) (ev : Option Int),
      translationAgentProcess data ⟨q, 0, v, ev, tn, none⟩ =
        .error (invalidSurahMsg 0)) ∧
    (∀ (s v : Int) (ev : Option Int), (s < 1 ∨ s > 114) →
      translationAgentProcess data ⟨q, s, v, ev, tn, none⟩ =
        .error (invalidSurahMsg s)) ∧
    (∀ (s v e : Int) (sur : SurahData), 1 ≤ s → s ≤ 114 →
      data.surahs.get? (s - 1).toNat = some sur →
      ¬(1 ≤ v ∧ v ≤ e ∧ e ≤ (sur.verses.length : Int)) →
      translationAgentProcess data ⟨q, s, v, some e, tn, none⟩ =
        .error (invalidRangeMsg v e (s - 1).toNat)) ∧
    (∀ (s v : Int) (sur : SurahData), 1 ≤ s → s ≤ 114 →
      data.surahs.get? (s - 1).toNat = some sur →
      ¬(1 ≤ v ∧ v ≤ (sur.verses.length : Int)) →
      translationAgentProcess data ⟨q, s, v, none, tn, none⟩ =
        .error (invalidVerseMsg v (s - 1).toNat)) ∧
    (∀ (s v e : Int) (sur : SurahData) (tnm : PyStr), 1 ≤ s → s ≤ 114 →
      data.surahs.get? (s - 1).toNat = some sur →
      1 ≤ v → v ≤ e → e ≤ (sur.verses.length : Int) →
      ∃ resp, translationAgentProcess data ⟨q, s, v, some e, some tnm, none⟩ =
          .ok resp ∧
        resp.arabicText = pyJoin "\n".data
          (((sur.verses.drop (v.toNat - 1)).take (e.toNat - (v.toNat - 1))).map
            (·.text))) ∧
    (∀ (s v e : Int) (sur : SurahData), 1 ≤ s → s ≤ 114 →
      data.surahs.get? (s - 1).toNat = some sur →
      1 ≤ v → v ≤ e → e ≤ (sur.verses.length : Int) →
      translationAgentProcess data ⟨q, s, v, some e, none, none⟩ =
        .error pydanticTranslationNameMsg) := by
  refine ⟨fun v ev => rfl, ?_, ?_, ?_, ?_, ?_⟩
  · intro s v ev hs
    simp only [translationAgentProcess]
    split
    · rfl
    · rename_i hcond
      exfalso
      simp only [Bool.or_eq_true, decide_eq_true_eq, not_or] at hcond
      omega
  · intro s v e sur hs1 hs2 hsur hviol
    simp only [translationAgentProcess]
    split
    · rename_i hcond
      exfalso
      simp only [Bool.or_eq_true, decide_eq_true_eq] at hcond
      omega
    · have hgv : getVerses data (s - 1).toNat v e =
          .error (invalidRangeMsg v e (s - 1).toNat) := by
        simp only [getVerses, hsur]
        rw [if_pos (by simp only [Bool.or_eq_true, decide_eq_true_eq]; omega)]
      rw [hgv]
      rfl
  · intro s v sur hs1 hs2 hsur hviol
    simp only [translationAgentProcess]
    split
    · rename_i hcond
      exfalso
      simp only [Bool.or_eq_true, decide_eq_true_eq] at hcond
      omega
    · have hgv : getVerse data (s - 1).toNat v =
          .error (invalidVerseMsg v (s - 1).toNat) := by
        simp only [getVerse, hsur]
        rw [if_pos (by simp only [Bool.or_eq_true, decide_eq_true_eq]; omega)]
      rw [hgv]
      rfl
  · intro s v e sur tnm hs1 hs2 hsur h1 h2 h3
    simp only [translationAgentProcess]
    split
    · rename_i hcond
      exfalso
      simp only [Bool.or_eq_true, decide_eq_true_eq] at hcond
      omega
    · have hgv : getVerses data (s - 1).toNat v e =
          .ok ((List.range' (v.toNat - 1) (e.toNat - (v.toNat - 1))).map fun idx =>
            ⟨(sur.verses.getD idx ⟨[]⟩).text, (idx : Int) + 1, ((s - 1).toNat : Int) + 1⟩) := by
        simp only [getVerses, hsur]
        rw [if_neg (by simp only [Bool.or_eq_true, decide_eq_true_eq]; omega)]
      rw [hgv]
      refine ⟨_, rfl, ?_⟩
      show pyJoin "\n".data
          (((List.range' (v.toNat - 1) (e.toNat - (v.toNat - 1))).map fun idx =>
            (⟨(sur.verses.getD idx ⟨[]⟩).text, (idx : Int) + 1,
              ((s - 1).toNat : Int) + 1⟩ : VerseInfo)).map (·.arabic)) =
        pyJoin "\n".data
          (((sur.verses.drop (v.toNat - 1)).take (e.toNat - (v.toNat - 1))).map (·.text))
      exact congrArg (pyJoin "\n".data)
        (verses_arabic_map sur (((s - 1).toNat : Int) + 1) (v.toNat - 1)
          (e.toNat - (v.toNat - 1)) (by omega))
  · intro s v e sur hs1 hs2 hsur h1 h2 h3
    simp only [translationAgentProcess]
    split
    · rename_i hcond
      exfalso
      simp only [Bool.or_eq_true, decide_eq_true_eq] at hcond
      omega
    · have hgv : getVerses data (s - 1).toNat v e =
          .ok ((List.range' (v.toNat - 1) (e.toNat - (v.toNat - 1))).map fun idx =>
            ⟨(sur.verses.getD idx ⟨[]⟩).text, (idx : Int) + 1, ((s - 1).toNat : Int) + 1⟩) := by
        simp only [getVerses, hsur]
        rw [if_neg (by simp only [Bool.or_eq_true, decide_eq_true_eq]; omega)]
      rw [hgv]
      rfl

/-- Quran data with a single three-verse surah, for the witness. -/
def c7Data : QuranData :=
  ⟨[⟨[⟨"verse one".data⟩, ⟨"verse two".data⟩, ⟨"verse three".data⟩]⟩]⟩

/-- C7, witness: `surah = 0` raises the surah `ValueError`, the range
`1..5` over a three-verse surah raises the range `ValueError`, the valid
range `1..2` with a concrete translation name returns verses one and two
exactly, and the same valid request without a translation name fails at
response construction with the pydantic error. -/
theorem c7_translation_validation_witness :
    (translationAgentProcess c7Data ⟨"q".data, 0, 1, none, none, none⟩ =
      .error (invalidSurahMsg 0)) ∧
    (translationAgentProcess c7Data ⟨"q".data, 115, 1, none, none, none⟩ =
      .error (invalidSurahMsg 115)) ∧
    (translationAgentProcess c7Data ⟨"q".data, 1, 1, some 5, none, none⟩ =
      .error (invalidRangeMsg 1 5 0)) ∧
    (∃ resp, translationAgentProcess c7Data
        ⟨"q".data, 1, 1, some 2, some "en-sahih-international".data, none⟩ =
        .ok resp ∧
      resp.arabicText = pyJoin "\n".data
        ((((c7Data.surahs.getD 0 ⟨[]⟩).verses.drop 0).take 2).map (·.text))) ∧
    (translationAgentProcess c7Data ⟨"q".data, 1, 1, some 2, none, none⟩ =
      .error pydanticTranslationNameMsg) := by
  obtain ⟨ha, hb, hc, _, he, hf⟩ :=
    c7_translation_validation c7Data "q".data none
  refine ⟨ha 1 none, hb 115 1 none (by omega), ?_, ?_, ?_⟩
  · exact hc 1 1 5 (c7Data.surahs.getD 0 ⟨[]⟩) (by decide) (by decide) (by decide)
      (by decide)
  · exact he 1 1 2 (c7Data.surahs.getD 0 ⟨[]⟩) "en-sahih-international".data
      (by decide) (by decide) (by decide) (by decide) (by decide) (by decide)
  · exact hf 1 1 2 (c7Data.surahs.getD 0 ⟨[]⟩) (by decide) (by decide) (by decide)
      (by decide) (by decide) (by decide)

/-- C8, counterexample: a failing tafsir-directory listing does not
propagate out of the Tafsir Lookup constructor — `_load_available_tafsirs`
catches it and the agent is constructed anyway, in the degraded state of an
empty tafsir registry. -/
theorem c8_counterexample :
    tafsirInit (.error "No such file or directory: data/tafsirs".data) = .ok ⟨[]⟩ :=
  rfl

/-- C8, amended: the Retriever, Generator and Translation constructors do
re-raise a backing-store failure (as the corresponding `RuntimeError`), and
succeed exactly when loading succeeds; the Tafsir Lookup constructor alone
swallows its listing failure and constructs an agent with an empty
registry. -/
theorem c8_constructor_failure_propagation (e : PyStr) :
    initializeVectorStore (.error e) =
      .error ("Failed to load vector store: ".data ++ e) ∧
    initializeGenerator (.error e) =
      .error ("Failed to initialize generator: ".data ++ e) ∧
    loadQuranData (.error e) = .error ("Failed to load Quran data: ".data ++ e) ∧
    tafsirInit (.error e) = .ok ⟨[]⟩ ∧
    (∀ vs : Int → Bool → Retriever,
      initializeVectorStore (.ok vs) = .ok ⟨vs, vs 5 true⟩) ∧
    (∀ g, initializeGenerator (.ok g) = .ok g) ∧
    (∀ d, loadQuranData (.ok d) = .ok d) :=
  ⟨rfl, rfl, rfl, rfl, fun _ => rfl, fun _ => rfl, fun _ => rfl⟩

/-- A chunk from surah 3, used to exhibit a filter violation. -/
def c9Doc : Doc :=
  ⟨"And He taught Adam the names".data, "quran".data, "3:7".data, some 3, some 7, none⟩

/-- The default retrieval path: a compression retriever (no `search_kwargs`
attribute) whose index yields the surah-3 chunk. -/
def c9Retriever : Retriever := ⟨false, fun _ => .ok [c9Doc]⟩

/-- The retriever agent over that retriever. -/
def c9Agent : RetrieverAgent := ⟨fun _ _ => c9Retriever, c9Retriever⟩

/-- A request filtered to surah 2. -/
def c9Request : RetrieverAgentRequest :=
  ⟨"creation".data, some 2, none, 5, true, none⟩

/-- C9, counterexample: the agent builds the criteria `{"surah": 2}`, yet
the returned documents still carry `surah_num = 3` — on the default
compression path the retriever object exposes no `search_kwargs`, the
criteria are silently dropped, and no post-hoc metadata filtering exists
anywhere in the pipeline. -/
theorem c9_counterexample :
    (retrieverAgentProcess c9Agent c9Request).filterCriteria = [("surah".data, 2)] ∧
    ((retrieverAgentProcess c9Agent c9Request).documents.map fun d => d.surahNum) =
      [some 3] ∧
    (some 3 : Option Int) ≠ some 2 := by
  refine ⟨by decide, by decide, by decide⟩

/-- C9, amended: the retriever applies no metadata filtering of its own.
Without a `search_kwargs` attribute the result is independent of the filter
criteria altogether; and whatever the underlying retriever returns is
passed through unchanged apart from the `query` metadata entry — `source`,
`reference`, `surah_num` and `verse_num` (and the count) are exactly those
of the index's answer, for any filter. -/
theorem c9_filter_passthrough (run : Option FilterDict → Except PyStr (List Doc))
    (q : PyStr) (filt filt' : FilterDict) (ds : List Doc) (hsk : Bool)
    (req : RetrieverAgentRequest) :
    retrieveRelevantContext ⟨false, run⟩ q filt =
      retrieveRelevantContext ⟨false, run⟩ q filt' ∧
    retrieveRelevantContext ⟨hsk, fun _ => .ok ds⟩ q filt =
      ds.map (addQueryMeta q) ∧
    ((ds.map (addQueryMeta q)).map fun d =>
        (d.source, d.reference, d.surahNum, d.verseNum)) =
      (ds.map fun d => (d.source, d.reference, d.surahNum, d.verseNum)) ∧
    (retrieverAgentProcess ⟨fun _ _ => ⟨false, fun _ => .ok ds⟩,
        ⟨false, fun _ => .ok ds⟩⟩ req).documents = ds.map (addQueryMeta req.query) := by
  refine ⟨rfl, rfl, ?_, ?_⟩
  · rw [List.map_map]
    exact List.map_congr_left (fun d _ => rfl)
  · simp only [retrieverAgentProcess]
    split <;> rfl

/-- C10: a `surah_filter` or `verse_filter` equal to `0` is treated as
absent (Python truthiness, not a presence test): it is left out of
`filters_applied`, contributes no `"surah"`/`"verse"` criterion to
retrieval, and never enables the direct tafsir lookup even with
`use_direct_tafsir = true`. -/
theorem c10_zero_filter_is_absent (retAg : RetrieverAgent)
    (tafsirRead : PyStr → Except PyStr (Int → Int → Option PyStr))
    (tafsirAg : TafsirAgent) (t1 : Except PyStr PyStr)
    (t2 : Except PyStr ChainResponse) (q : PyStr) (sf vf : Option Int) :
    (sf = some 0 →
      "surah_filter".data ∉
        (processQuery retAg tafsirRead tafsirAg t1 t2
          ⟨q, sf, vf, true⟩).filtersApplied.map Prod.fst ∧
      "surah".data ∉
        (retrieverAgentProcess retAg
          ⟨q, sf, vf, 5, true, some ⟨some 5, some true, none, none⟩⟩).filterCriteria.map
            Prod.fst) ∧
    (vf = some 0 →
      "verse_filter".data ∉
        (processQuery retAg tafsirRead tafsirAg t1 t2
          ⟨q, sf, vf, true⟩).filtersApplied.map Prod.fst ∧
      "verse".data ∉
        (retrieverAgentProcess retAg
          ⟨q, sf, vf, 5, true, some ⟨some 5, some true, none, none⟩⟩).filterCriteria.map
            Prod.fst) ∧
    (sf = some 0 ∨ vf = some 0 →
      (processQuery retAg tafsirRead tafsirAg t1 t2 ⟨q, sf, vf, true⟩).directTafsir =
        none) := by
  refine ⟨?_, ?_, ?_⟩
  · rintro rfl
    constructor
    · show "surah_filter".data ∉
        (((if pyTruthy (some 0) then [("surah_filter".data, (0 : Int))] else []) ++
          (if pyTruthy vf then [("verse_filter".data, vf.getD 0)] else [])).map Prod.fst)
      rw [show pyTruthy (some 0) = false from rfl]
      simp only [if_false, List.nil_append]
      by_cases hv : pyTruthy vf
      · rw [if_pos hv]
        simp
      · rw [if_neg hv]
        simp
    · show "surah".data ∉
        (((if pyTruthy (some 0) then [("surah".data, (0 : Int))] else []) ++
          (if pyTruthy vf then [("verse".data, vf.getD 0)] else [])).map Prod.fst)
      rw [show pyTruthy (some 0) = false from rfl]
      simp only [if_false, List.nil_append]
      by_cases hv : pyTruthy vf
      · rw [if_pos hv]
        simp
      · rw [if_neg hv]
        simp
  · rintro rfl
    constructor
    · show "verse_filter".data ∉
        (((if pyTruthy sf then [("surah_filter".data, sf.getD 0)] else []) ++
          (if pyTruthy (some 0) then [("verse_filter".data, (0 : Int))] else [])).map
            Prod.fst)
      rw [show pyTruthy (some 0) = false from rfl]
      simp only [if_false, List.append_nil]
      by_cases hs : pyTruthy sf
      · rw [if_pos hs]
        simp
      · rw [if_neg hs]
        simp
    · show "verse".data ∉
        (((if pyTruthy sf then [("surah".data, sf.getD 0)] else []) ++
          (if pyTruthy (some 0) then [("verse".data, (0 : Int))] else [])).map Prod.fst)
      rw [show pyTruthy (some 0) = false from rfl]
      simp only [if_false, List.append_nil]
      by_cases hs : pyTruthy sf
      · rw [if_pos hs]
        simp
      · rw [if_neg hs]
        simp
  · intro h
    show (if true && pyTruthy sf && pyTruthy vf then
        some (tafsirAgentProcess tafsirRead tafsirAg _) else none).map _ = none
    rcases h with rfl | rfl
    · rw [show pyTruthy (some 0) = false from rfl]
      simp
    · rw [show pyTruthy (some 0) = false from rfl]
      simp

/-- A one-tafsir registry for the C10 witness. -/
def c10TafsirAgent : TafsirAgent :=
  ⟨[("en-tafisr-ibn-kathir".data, ⟨"en-tafisr-ibn-kathir.json".data, "Tafisr Ibn Kathir".data⟩)]⟩

/-- C10, witness: with both filters set to `0` and `use_direct_tafsir`
requested, the zero filters are dropped everywhere and no direct lookup
happens. -/
theorem c10_zero_filter_is_absent_witness :
    ((some 0 : Option Int) = some 0) ∧
    "surah_filter".data ∉
      (processQuery c9Agent (fun _ => .error []) c10TafsirAgent
        (.ok "answer".data) (.error [])
        ⟨"q".data, some 0, some 0, true⟩).filtersApplied.map Prod.fst ∧
    (processQuery c9Agent (fun _ => .error []) c10TafsirAgent
      (.ok "answer".data) (.error []) ⟨"q".data, some 0, some 0, true⟩).directTafsir =
      none := by
  have h := c10_zero_filter_is_absent c9Agent (fun _ => .error []) c10TafsirAgent
    (.ok "answer".data) (.error []) "q".data (some 0) (some 0)
  exact ⟨rfl, (h.1 rfl).1, h.2.2 (Or.inl rfl)⟩

end RagQuran
